import Mathlib

/-!
Formal model of the robothon-reserve-scan inventory reservation path.

Shallow embedding of:
 * the SQL function `transaction_decrement_and_track`
   (supabase/migrations/20251002064009_....sql, the version that inserts
   status 'reserved'), including the foreign-key behaviour of the
   `inventory_tracking` INSERT and the all-or-nothing transaction;
 * the bulk `serve` handler of supabase/functions/checkout-item/index.ts
   (the version supporting `body.items`), from the point where the bearer
   token has been verified (authentication itself is an external service:
   we pass the verified user id, `none` standing for a missing/invalid
   token);
 * the legacy single-item `serve` handler from the same file;
 * the client-side `handleReserveAll` cart submission (src/unnamed/part_006);
 * the admin `handleUpdateReservation` of
   src/components/admin/PartsManagement.tsx together with the row level
   security policy "Allow admin to manage inventory tracking"
   (migrations/20251005114453_....sql): a non-admin UPDATE matches zero
   rows under RLS and returns no error.

JavaScript numeric coercion is modelled by `RawValue`/`jsNumber`:
`RawValue.num n` is a value whose `Number(...)` conversion yields the
integer `n`, `RawValue.nan` one whose conversion yields NaN (a missing
field, a non-numeric string, an object).  All quantities in the code are
integers, so `Int` suffices.  Timestamps are a logical clock `DB.now`;
`gen_random_uuid()` for tracking rows is modelled by the fresh counter
`DB.nextId`.
-/

deriving instance DecidableEq for Except

namespace ReserveScan

/-- Ledger statuses, per the final CHECK constraint
`status IN ('reserved','issued','returned','lost','damaged')`. -/
inductive Status
  | reserved
  | issued
  | returned
  | lost
  | damaged
deriving DecidableEq, Repr

/-- Profile roles, per `CREATE TYPE public.user_role AS ENUM ('admin','team')`. -/
inductive Role
  | admin
  | team
deriving DecidableEq, Repr

/-- A row of `public.parts` (the fields the checkout path reads/writes). -/
structure Part where
  id : Int
  category_id : Int
  name : String
  quantity : Int
deriving DecidableEq, Repr

/-- A row of `public.categories` (the fields the checkout path reads).
`checkout_limit` is a nullable integer column with default 10. -/
structure Category where
  id : Int
  name : String
  checkout_limit : Option Int
deriving DecidableEq, Repr

/-- A row of `public.profiles` (the fields the checkout path reads). -/
structure Profile where
  id : String
  user_id : String
  role : Role
deriving DecidableEq, Repr

/-- A row of `public.inventory_tracking`.  After migration
20251008070524 both references are nullable (`ON DELETE SET NULL`). -/
structure LedgerEntry where
  id : Nat
  part_id : Option Int
  team_user_id : Option String
  status : Status
  scanned_at : Nat
  notes : Option String
  admin_remarks : Option String
deriving DecidableEq, Repr

/-- The database state the reservation path touches. -/
structure DB where
  categories : List Category
  parts : List Part
  profiles : List Profile
  tracking : List LedgerEntry
  nextId : Nat
  now : Nat
deriving DecidableEq, Repr

/-- A Postgres error as surfaced to the supabase-js client: SQLSTATE code
and message text. -/
structure RpcError where
  code : String
  message : String
deriving DecidableEq, Repr

/-- The foreign-key violation raised by the `inventory_tracking` INSERT
when `part_id` references no row of `parts` (SQLSTATE 23503). -/
def fkPartViolation : RpcError :=
  { code := "23503"
    message := "insert or update on table \"inventory_tracking\" violates foreign key constraint \"inventory_tracking_part_id_fkey\"" }

/-- The foreign-key violation raised by the `inventory_tracking` INSERT
when `team_user_id` references no row of `profiles` (SQLSTATE 23503). -/
def fkProfileViolation : RpcError :=
  { code := "23503"
    message := "insert or update on table \"inventory_tracking\" violates foreign key constraint \"inventory_tracking_team_user_id_fkey\"" }

/-- Embedding of the SQL function `transaction_decrement_and_track`
(migrations/20251002064009, 'reserved' version):

    UPDATE parts SET quantity = quantity - 1
    WHERE id = p_part_id AND quantity > 0;
    INSERT INTO inventory_tracking (part_id, team_user_id, status, scanned_at)
    VALUES (p_part_id, p_team_profile_id, 'reserved', now());

The UPDATE is conditional and raises nothing when it matches no row; the
INSERT is unconditional and raises a foreign-key violation when a
reference is dangling, in which case the whole function call (one
transaction) rolls back, hence `.error` carries no new state. -/
def transaction_decrement_and_track (db : DB) (p_part_id : Int)
    (p_team_profile_id : String) : Except RpcError DB :=
  let parts1 := db.parts.map fun p =>
    if p.id = p_part_id ∧ 0 < p.quantity then { p with quantity := p.quantity - 1 } else p
  if db.parts.all fun p => decide (p.id ≠ p_part_id) then
    .error fkPartViolation
  else if db.profiles.all fun pr => decide (pr.id ≠ p_team_profile_id) then
    .error fkProfileViolation
  else
    .ok { db with
          parts := parts1
          tracking := db.tracking ++
            [{ id := db.nextId
               part_id := some p_part_id
               team_user_id := some p_team_profile_id
               status := Status.reserved
               scanned_at := db.now
               notes := none
               admin_remarks := none }]
          nextId := db.nextId + 1 }

/-- A JavaScript value as it matters to `Number(...)` coercion: either it
converts to the integer `n`, or it converts to NaN (missing field,
non-numeric string, object). -/
inductive RawValue
  | num (n : Int)
  | nan
deriving DecidableEq, Repr

/-- JavaScript `Number(x)`, `none` standing for NaN. -/
def jsNumber : RawValue → Option Int
  | .num n => some n
  | .nan => none

/-- JavaScript `Number(x) || 1` (NaN and 0 are falsy). -/
def numberOrOne (v : RawValue) : Int :=
  match jsNumber v with
  | some n => if n = 0 then 1 else n
  | none => 1

/-- One element of the request body's `items` array. -/
structure RawItem where
  part_id : RawValue
  quantity : RawValue
deriving DecidableEq, Repr

/-- The POST body of the checkout endpoint.  `items = none` models an
absent (or JS-falsy) `items` field. -/
structure Body where
  items : Option (List RawItem)
  part_id : RawValue
deriving DecidableEq, Repr

/-- The body used per checkout request:
`const items = body.items || [{ part_id: Number(body.part_id), quantity: 1 }]`. -/
def parseItems (body : Body) : List RawItem :=
  match body.items with
  | some its => its
  | none =>
      [{ part_id := match jsNumber body.part_id with
                    | some n => RawValue.num n
                    | none => RawValue.nan
         quantity := RawValue.num 1 }]

/-- The distinct responses the bulk `serve` handler can produce. -/
inductive CheckoutResult
  | invalidToken
  | profileNotFound
  | invalidItem
  | insufficientStock (partName : Option String)
  | checkoutFailed (msg : String)
  | success (items_count : Int)
deriving DecidableEq, Repr

/-- Whether the first character list leads the second. -/
def charsLeadWith : List Char → List Char → Bool
  | [], _ => true
  | _ :: _, [] => false
  | c :: cs, d :: ds => c = d && charsLeadWith cs ds

/-- Whether the first character list occurs contiguously in the second. -/
def charsFound (needle : List Char) : List Char → Bool
  | [] => charsLeadWith needle []
  | d :: ds => charsLeadWith needle (d :: ds) || charsFound needle ds

/-- JavaScript `hay.includes(needle)` on strings. -/
def strIncludes (hay needle : String) : Bool :=
  charsFound needle.toList hay.toList

/-- The handler's test for a stock-related RPC error:
`updateErr.message?.includes('quantity') || updateErr.code === '23514'`. -/
def errIsStockIssue (e : RpcError) : Bool :=
  strIncludes e.message "quantity" || e.code = "23514"

/-- `SELECT ... FROM parts WHERE id = pid` with `maybeSingle()`. -/
def lookupPart (db : DB) (pid : Int) : Option Part :=
  db.parts.find? fun p => decide (p.id = pid)

/-- The inner unit loop of the bulk handler: `for (let i = 0; i < quantity; i++)`
calling the RPC once per unit.  An error aborts the loop; units already
committed stay committed, so the error carries the state reached so far. -/
def processUnits (db : DB) (profId : String) (pid : Int) :
    Nat → Except (RpcError × DB) DB
  | 0 => .ok db
  | n + 1 =>
      match transaction_decrement_and_track db pid profId with
      | .error e => .error (e, db)
      | .ok db1 => processUnits db1 profId pid n

/-- The outer `for (const item of items)` loop of the bulk handler.
Per item: `part_id = Number(item.part_id)`, `quantity = Number(item.quantity) || 1`,
reject when `!part_id || quantity <= 0`, then run the unit loop; an RPC
error yields the insufficient-stock response when `errIsStockIssue`, else
the generic 500.  `.error` is an early `return` carrying the response and
the state reached so far. -/
def runItems (db : DB) (profId : String) :
    List RawItem → Except (CheckoutResult × DB) DB
  | [] => .ok db
  | item :: rest =>
      match jsNumber item.part_id with
      | none => .error (.invalidItem, db)
      | some pid =>
          if pid = 0 then .error (.invalidItem, db)
          else
            let quantity := numberOrOne item.quantity
            if quantity ≤ 0 then .error (.invalidItem, db)
            else
              match processUnits db profId pid quantity.toNat with
              | .error (e, db1) =>
                  if errIsStockIssue e then
                    .error (.insufficientStock ((lookupPart db1 pid).map Part.name), db1)
                  else
                    .error (.checkoutFailed ("Checkout failed: " ++ e.message), db1)
              | .ok db1 => runItems db1 profId rest

/-- Embedding of the bulk `serve` handler of
supabase/functions/checkout-item/index.ts (the `body.items` version), from
the point where the bearer token has been verified: `auth` is the verified
user id (`none` = missing/invalid token).  The success count is
`items.reduce((sum, item) => sum + (Number(item.quantity) || 1), 0)`. -/
def serveBulk (db : DB) (auth : Option String) (body : Body) :
    CheckoutResult × DB :=
  match auth with
  | none => (.invalidToken, db)
  | some uid =>
      match db.profiles.find? fun pr => decide (pr.user_id = uid) with
      | none => (.profileNotFound, db)
      | some prof =>
          let items := parseItems body
          match runItems db prof.id items with
          | .error r => r
          | .ok db1 =>
              (.success (items.foldl (fun s it => s + numberOrOne it.quantity) 0), db1)

/-- The distinct responses of the legacy single-item `serve` handler. -/
inductive LegacyResult
  | invalidToken
  | profileNotFound
  | invalidPartId
  | partNotFound
  | outOfStock
  | serverError (msg : String)
  | success
deriving DecidableEq, Repr

/-- Embedding of the legacy single-item `serve` handler of
supabase/functions/checkout-item/index.ts (first version in the file):
resolve the profile, coerce `body.part_id`, fetch the part (404 when
absent), reject `quantity <= 0` stock with "Out of stock", then call the
RPC once; an RPC error is thrown and surfaces as a 500. -/
def serveLegacy (db : DB) (auth : Option String) (body : Body) :
    LegacyResult × DB :=
  match auth with
  | none => (.invalidToken, db)
  | some uid =>
      match db.profiles.find? fun pr => decide (pr.user_id = uid) with
      | none => (.profileNotFound, db)
      | some prof =>
          match jsNumber body.part_id with
          | none => (.invalidPartId, db)
          | some pid =>
              if pid = 0 then (.invalidPartId, db)
              else
                match lookupPart db pid with
                | none => (.partNotFound, db)
                | some part =>
                    if part.quantity ≤ 0 then (.outOfStock, db)
                    else
                      match transaction_decrement_and_track db pid prof.id with
                      | .error e => (.serverError e.message, db)
                      | .ok db1 => (.success, db1)

/-- The outcomes of the client-side `handleReserveAll` before/at the point
it invokes the checkout endpoint. -/
inductive ClientCheckout
  | cartEmpty
  | limitExceeded (limit : Int)
  | invoke (items : List RawItem)
deriving DecidableEq, Repr

/-- `const checkoutLimit = category?.checkout_limit || 10` (null and 0 are
falsy, so both fall back to 10). -/
def effectiveLimit (category : Option Category) : Int :=
  match category with
  | none => 10
  | some c =>
      match c.checkout_limit with
      | none => 10
      | some l => if l = 0 then 10 else l

/-- Embedding of the client-side `handleReserveAll` (src/unnamed/part_006):
reject an empty cart, reject when the cart total exceeds the category's
effective checkout limit, otherwise convert the cart to an `items` array
and invoke the `checkout-item` endpoint.  The cart maps part ids to
quantities. -/
def handleReserveAll (cart : List (Int × Int)) (category : Option Category) :
    ClientCheckout :=
  if cart.isEmpty then .cartEmpty
  else
    let totalItems := (cart.map Prod.snd).sum
    let checkoutLimit := effectiveLimit category
    if totalItems > checkoutLimit then .limitExceeded checkoutLimit
    else .invoke (cart.map fun pq => { part_id := RawValue.num pq.1, quantity := RawValue.num pq.2 })

/-- The outcome `handleUpdateReservation` observes from the supabase
client (error null or an error message). -/
inductive UpdateResult
  | success
  | failure (msg : String)
deriving DecidableEq, Repr

/-- Embedding of `handleUpdateReservation`
(src/components/admin/PartsManagement.tsx) combined with the row level
security policy "Allow admin to manage inventory tracking": the UPDATE
sets only `status` and `admin_remarks` on the row with the given id.  For
a caller whose role is not admin, RLS filters every row, so the UPDATE
matches zero rows and returns no error: the client observes success and
the database is unchanged. -/
def handleUpdateReservation (db : DB) (caller : Profile) (reservationId : Nat)
    (editStatus : Status) (editRemarks : String) : UpdateResult × DB :=
  if caller.role = Role.admin then
    (.success,
     { db with tracking := db.tracking.map fun e =>
         if e.id = reservationId then
           { e with status := editStatus, admin_remarks := some editRemarks }
         else e })
  else
    (.success, db)

/-- A request to one of the three mutating entry points in scope. -/
inductive Request
  | bulk (auth : Option String) (body : Body)
  | legacy (auth : Option String) (body : Body)
  | updateReservation (caller : Profile) (rid : Nat) (st : Status) (remarks : String)
deriving Repr

/-- The state reached after one request (the response discarded). -/
def applyRequest (db : DB) : Request → DB
  | .bulk a b => (serveBulk db a b).2
  | .legacy a b => (serveLegacy db a b).2
  | .updateReservation c r s m => (handleUpdateReservation db c r s m).2

/-- The state reached after a sequence of requests. -/
def runRequests (db : DB) : List Request → DB
  | [] => db
  | r :: rs => runRequests (applyRequest db r) rs

/-- Number of `inventory_tracking` rows referencing `pid` in a state of
the set {reserved, issued}. -/
def reservedIssuedCount (db : DB) (pid : Int) : Nat :=
  (db.tracking.filter fun e =>
    decide (e.part_id = some pid ∧ (e.status = Status.reserved ∨ e.status = Status.issued))).length

/-- The quantity of the part with id `pid`, when it exists. -/
def quantityOf (db : DB) (pid : Int) : Option Int :=
  (lookupPart db pid).map Part.quantity

/-- Every part of the state has non-negative quantity. -/
def NonnegParts (db : DB) : Prop :=
  ∀ p ∈ db.parts, 0 ≤ p.quantity

instance (db : DB) : Decidable (NonnegParts db) :=
  inferInstanceAs (Decidable (∀ p ∈ db.parts, 0 ≤ p.quantity))

/-- The bulk handler's per-item rejection test `!part_id || quantity <= 0`
after JS coercion. -/
def isInvalidItem (item : RawItem) : Bool :=
  match jsNumber item.part_id with
  | none => true
  | some pid => pid = 0 || numberOrOne item.quantity ≤ 0

/-- C1: the pairing/conservation invariant fails on the code.  Part 9 is
stocked with quantity 1; two single-unit checkout requests both go
through, because `transaction_decrement_and_track` inserts its tracking
row unconditionally even when the guarded UPDATE matched zero rows and
raises no error.  Afterwards the part's quantity is 0 but two entries in
status reserved reference it: reserved/issued entries (2) plus current
quantity (0) no longer equal the original stocked quantity (1), and the
second entry's decrement never happened. -/
theorem c1_conservation_violated_at_zero_stock :
    let db0 : DB :=
      { categories := []
        parts := [{ id := 9, category_id := 1, name := "Servo", quantity := 1 }]
        profiles := [{ id := "prof-1", user_id := "user-1", role := Role.team }]
        tracking := []
        nextId := 0
        now := 0 }
    let db2 := runRequests db0
      [ Request.bulk (some "user-1") { items := none, part_id := RawValue.num 9 },
        Request.bulk (some "user-1") { items := none, part_id := RawValue.num 9 } ]
    quantityOf db0 9 = some 1 ∧ quantityOf db2 9 = some 0 ∧
      reservedIssuedCount db2 9 = 2 := by
  decide

/-- C2: the spec scenario `checkout(profile, [(part 5, quantity 5)])`
against quantity 3 does not fail with OutOfStock: the RPC raises no error
when stock is exhausted, so the bulk handler reports success with
items_count 5, the quantity ends at 0, and five (not three) reserved
entries are created. -/
theorem c2_bulk_checkout_overshoot :
    let db0 : DB :=
      { categories := [{ id := 1, name := "Electronics", checkout_limit := some 10 }]
        parts := [{ id := 5, category_id := 1, name := "Resistor Pack", quantity := 3 }]
        profiles := [{ id := "prof-1", user_id := "user-1", role := Role.team }]
        tracking := []
        nextId := 0
        now := 0 }
    let r := serveBulk db0 (some "user-1")
      { items := some [{ part_id := RawValue.num 5, quantity := RawValue.num 5 }]
        part_id := RawValue.nan }
    r.1 = CheckoutResult.success 5 ∧ quantityOf r.2 5 = some 0 ∧
      reservedIssuedCount r.2 5 = 5 := by
  decide

/-- C7: a ledger entry is created by the checkout path for a unit that was
never checked out.  With part 3 at quantity 0, one call of
`transaction_decrement_and_track` leaves the quantity at 0 (the guarded
UPDATE matches nothing) yet succeeds and appends a reserved entry
referencing the part and the profile — so entries are not one per unit
checked out. -/
theorem c7_phantom_entry_at_zero_stock :
    let db0 : DB :=
      { categories := []
        parts := [{ id := 3, category_id := 1, name := "Motor", quantity := 0 }]
        profiles := [{ id := "prof-1", user_id := "user-1", role := Role.team }]
        tracking := []
        nextId := 0
        now := 7 }
    transaction_decrement_and_track db0 3 "prof-1" =
      Except.ok { db0 with
        tracking := [{ id := 0, part_id := some 3, team_user_id := some "prof-1"
                       status := Status.reserved, scanned_at := 7
                       notes := none, admin_remarks := none }]
        nextId := 1 } ∧
    quantityOf db0 3 = some 0 := by
  decide

/-- C4 counterexample: the server-side bulk handler performs no
category-limit check.  Part 1 belongs to category 1 whose checkout_limit
is 10, yet a request for 11 units succeeds (items_count 11) and decrements
the stock from 20 to 9 instead of failing with CheckoutLimitExceeded. -/
theorem c4_server_ignores_checkout_limit :
    let db0 : DB :=
      { categories := [{ id := 1, name := "Electronics", checkout_limit := some 10 }]
        parts := [{ id := 1, category_id := 1, name := "R", quantity := 20 }]
        profiles := [{ id := "prof-1", user_id := "user-1", role := Role.team }]
        tracking := []
        nextId := 0
        now := 0 }
    let r := serveBulk db0 (some "user-1")
      { items := some [{ part_id := RawValue.num 1, quantity := RawValue.num 11 }]
        part_id := RawValue.nan }
    db0.categories = [{ id := 1, name := "Electronics", checkout_limit := some 10 }] ∧
      (11 : Int) > 10 ∧ r.1 = CheckoutResult.success 11 ∧ quantityOf r.2 1 = some 9 := by
  decide

/-- C5 counterexample: validation is not performed before any mutation.
In the batch [(part 1, 1), (part 0, 1)] the second line item is invalid
(part_id 0 is falsy), yet the request first commits the first item: the
response is the invalid-item rejection while part 1's quantity already
dropped from 5 to 4 and one reserved entry was inserted. -/
theorem c5_validation_failure_after_mutation :
    let db0 : DB :=
      { categories := []
        parts := [{ id := 1, category_id := 1, name := "R", quantity := 5 }]
        profiles := [{ id := "prof-1", user_id := "user-1", role := Role.team }]
        tracking := []
        nextId := 0
        now := 0 }
    let r := serveBulk db0 (some "user-1")
      { items := some [{ part_id := RawValue.num 1, quantity := RawValue.num 1 },
                       { part_id := RawValue.num 0, quantity := RawValue.num 1 }]
        part_id := RawValue.nan }
    r.1 = CheckoutResult.invalidItem ∧ quantityOf r.2 1 = some 4 ∧
      reservedIssuedCount r.2 1 = 1 := by
  decide

/-- C6 counterexample: in the bulk handler a nonexistent part does not
fail with PartNotFound: the unconditional INSERT hits a foreign-key
violation whose message does not contain "quantity" and whose code is
23503, so the handler returns the generic 500 "Checkout failed: ..."
response (the bulk response type has no part-not-found variant at all). -/
theorem c6_bulk_unknown_part_generic_error :
    let db0 : DB :=
      { categories := []
        parts := []
        profiles := [{ id := "prof-1", user_id := "user-1", role := Role.team }]
        tracking := []
        nextId := 0
        now := 0 }
    serveBulk db0 (some "user-1")
      { items := some [{ part_id := RawValue.num 42, quantity := RawValue.num 1 }]
        part_id := RawValue.nan } =
      (CheckoutResult.checkoutFailed ("Checkout failed: " ++ fkPartViolation.message), db0) := by
  decide

/-- C9 counterexample: a non-admin calling the reservation update does not
fail with Forbidden.  Row level security filters every row, the UPDATE
matches zero rows and returns no error, so the call reports success while
the entry is unchanged. -/
theorem c9_non_admin_update_reports_success :
    let db0 : DB :=
      { categories := []
        parts := []
        profiles := [{ id := "prof-1", user_id := "user-1", role := Role.team }]
        tracking := [{ id := 1, part_id := some 5, team_user_id := some "prof-1"
                       status := Status.reserved, scanned_at := 0
                       notes := some "for robot arm", admin_remarks := none }]
        nextId := 2
        now := 3 }
    handleUpdateReservation db0
        { id := "prof-1", user_id := "user-1", role := Role.team }
        1 Status.returned "ok" =
      (UpdateResult.success, db0) := by
  decide

/-- State component of a loop result (both branches carry one). -/
def exDB {α : Type} : Except (α × DB) DB → DB
  | .error (_, d) => d
  | .ok d => d

/-- A successful RPC call keeps every quantity non-negative: the UPDATE
only decrements under the guard `quantity > 0`. -/
theorem decrement_ok_nonneg {db db1 : DB} {pid : Int} {profId : String}
    (hok : transaction_decrement_and_track db pid profId = Except.ok db1)
    (h : NonnegParts db) : NonnegParts db1 := by
  unfold transaction_decrement_and_track at hok
  split at hok
  · simp at hok
  · split at hok
    · simp at hok
    · injection hok with h1
      subst h1
      unfold NonnegParts at h ⊢
      intro p hp
      simp only [List.mem_map] at hp
      obtain ⟨q, hq, rfl⟩ := hp
      by_cases hc : q.id = pid ∧ 0 < q.quantity
      · rw [if_pos hc]
        show 0 ≤ q.quantity - 1
        omega
      · rw [if_neg hc]
        exact h q hq

/-- The unit loop keeps every quantity non-negative, whether it completes
or aborts on an RPC error. -/
theorem processUnits_nonneg (profId : String) (pid : Int) :
    ∀ (n : Nat) (db : DB), NonnegParts db →
      NonnegParts (exDB (processUnits db profId pid n))
  | 0, _, h => h
  | n + 1, db, h => by
      rcases hrpc : transaction_decrement_and_track db pid profId with e | db1
      · simpa only [processUnits, hrpc] using h
      · simpa only [processUnits, hrpc] using
          processUnits_nonneg profId pid n db1 (decrement_ok_nonneg hrpc h)

/-- The item loop keeps every quantity non-negative, whether it completes
or returns early with a failure response. -/
theorem runItems_nonneg (profId : String) :
    ∀ (items : List RawItem) (db : DB), NonnegParts db →
      NonnegParts (exDB (runItems db profId items))
  | [], _, h => h
  | item :: rest, db, h => by
      rcases hj : jsNumber item.part_id with _ | pid
      · simpa only [runItems, hj] using h
      · by_cases hz : pid = 0
        · simpa only [runItems, hj, if_pos hz] using h
        · by_cases hq : numberOrOne item.quantity ≤ 0
          · simpa only [runItems, hj, if_neg hz, if_pos hq] using h
          · rcases hpu : processUnits db profId pid (numberOrOne item.quantity).toNat
              with ⟨e, db1⟩ | db1
            · have h1 : NonnegParts db1 := by
                simpa only [hpu, exDB] using
                  processUnits_nonneg profId pid (numberOrOne item.quantity).toNat db h
              simp only [runItems, hj, if_neg hz, if_neg hq, hpu]
              split
              · exact h1
              · exact h1
            · have h1 : NonnegParts db1 := by
                simpa only [hpu, exDB] using
                  processUnits_nonneg profId pid (numberOrOne item.quantity).toNat db h
              simpa only [runItems, hj, if_neg hz, if_neg hq, hpu] using
                runItems_nonneg profId rest db1 h1

/-- The bulk handler keeps every quantity non-negative. -/
theorem serveBulk_nonneg (db : DB) (auth : Option String) (body : Body)
    (h : NonnegParts db) : NonnegParts (serveBulk db auth body).2 := by
  rcases auth with _ | uid
  · exact h
  · rcases hp : db.profiles.find? fun pr => decide (pr.user_id = uid) with _ | prof
    · simp only [serveBulk, hp]
      exact h
    · rcases hr : runItems db prof.id (parseItems body) with ⟨res, db1⟩ | db1
      · have h1 : NonnegParts db1 := by
          simpa only [hr, exDB] using runItems_nonneg prof.id (parseItems body) db h
        simp only [serveBulk, hp, hr]
        exact h1
      · have h1 : NonnegParts db1 := by
          simpa only [hr, exDB] using runItems_nonneg prof.id (parseItems body) db h
        simp only [serveBulk, hp, hr]
        exact h1

/-- The legacy handler keeps every quantity non-negative. -/
theorem serveLegacy_nonneg (db : DB) (auth : Option String) (body : Body)
    (h : NonnegParts db) : NonnegParts (serveLegacy db auth body).2 := by
  rcases auth with _ | uid
  · exact h
  · rcases hp : db.profiles.find? fun pr => decide (pr.user_id = uid) with _ | prof
    · simp only [serveLegacy, hp]
      exact h
    · rcases hj : jsNumber body.part_id with _ | pid
      · simp only [serveLegacy, hp, hj]
        exact h
      · by_cases hz : pid = 0
        · simp only [serveLegacy, hp, hj, if_pos hz]
          exact h
        · rcases hl : lookupPart db pid with _ | part
          · simp only [serveLegacy, hp, hj, if_neg hz, hl]
            exact h
          · by_cases hq : part.quantity ≤ 0
            · simp only [serveLegacy, hp, hj, if_neg hz, hl, if_pos hq]
              exact h
            · rcases hrpc : transaction_decrement_and_track db pid prof.id with e | db1
              · simp only [serveLegacy, hp, hj, if_neg hz, hl, if_neg hq, hrpc]
                exact h
              · simp only [serveLegacy, hp, hj, if_neg hz, hl, if_neg hq, hrpc]
                exact decrement_ok_nonneg hrpc h

/-- The reservation update never touches `parts`, so it keeps every
quantity non-negative. -/
theorem handleUpdateReservation_nonneg (db : DB) (caller : Profile) (rid : Nat)
    (st : Status) (rem : String) (h : NonnegParts db) :
    NonnegParts (handleUpdateReservation db caller rid st rem).2 := by
  unfold handleUpdateReservation
  by_cases hrole : caller.role = Role.admin
  · rw [if_pos hrole]
    exact h
  · rw [if_neg hrole]
    exact h

/-- Every single request keeps every quantity non-negative. -/
theorem applyRequest_nonneg (db : DB) (r : Request) (h : NonnegParts db) :
    NonnegParts (applyRequest db r) := by
  cases r with
  | bulk a b => exact serveBulk_nonneg db a b h
  | legacy a b => exact serveLegacy_nonneg db a b h
  | updateReservation c rid s m => exact handleUpdateReservation_nonneg db c rid s m h

/-- C3: in every state reachable by any sequence of checkout requests
(bulk or legacy) and reservation updates from a state whose quantities are
all non-negative, every part's quantity stays non-negative: the guarded
conditional decrement can never take a quantity below 0. -/
theorem c3_quantity_never_negative (db : DB) (h : NonnegParts db) :
    ∀ rs : List Request, NonnegParts (runRequests db rs) := by
  intro rs
  induction rs generalizing db with
  | nil => exact h
  | cons r rs ih => exact ih (applyRequest db r) (applyRequest_nonneg db r h)

/-- Witness for C3 at a concrete store and a concrete request sequence
(a bulk checkout draining the stock past zero). -/
theorem c3_quantity_never_negative_witness :
    NonnegParts
      { categories := []
        parts := [{ id := 2, category_id := 1, name := "LED", quantity := 1 }]
        profiles := [{ id := "prof-1", user_id := "user-1", role := Role.team }]
        tracking := []
        nextId := 0
        now := 0 } ∧
    NonnegParts (runRequests
      { categories := []
        parts := [{ id := 2, category_id := 1, name := "LED", quantity := 1 }]
        profiles := [{ id := "prof-1", user_id := "user-1", role := Role.team }]
        tracking := []
        nextId := 0
        now := 0 }
      [ Request.bulk (some "user-1")
          { items := some [{ part_id := RawValue.num 2, quantity := RawValue.num 3 }]
            part_id := RawValue.nan } ]) :=
  ⟨by decide, c3_quantity_never_negative _ (by decide) _⟩

/-- C8: the reservation update overwrites only the targeted entry's
`status` and `admin_remarks`: no part quantity changes (parts are
untouched), every entry keeps its id, part reference, profile reference,
`notes` and creation timestamp `scanned_at`, and every entry other than
the targeted one is fully unchanged. -/
theorem c8_update_reservation_frame (db : DB) (caller : Profile) (rid : Nat)
    (st : Status) (rem : String) :
    (handleUpdateReservation db caller rid st rem).2.parts = db.parts ∧
    List.Forall₂ (fun e e1 : LedgerEntry =>
        e1.id = e.id ∧ e1.part_id = e.part_id ∧ e1.team_user_id = e.team_user_id ∧
        e1.notes = e.notes ∧ e1.scanned_at = e.scanned_at ∧
        (e.id ≠ rid → e1 = e))
      db.tracking (handleUpdateReservation db caller rid st rem).2.tracking := by
  unfold handleUpdateReservation
  by_cases hrole : caller.role = Role.admin
  · rw [if_pos hrole]
    refine ⟨rfl, List.forall₂_map_right_iff.mpr (List.forall₂_same.mpr ?_)⟩
    intro e _
    by_cases hid : e.id = rid
    · rw [if_pos hid]
      exact ⟨rfl, rfl, rfl, rfl, rfl, fun hne => absurd hid hne⟩
    · rw [if_neg hid]
      exact ⟨rfl, rfl, rfl, rfl, rfl, fun _ => rfl⟩
  · rw [if_neg hrole]
    exact ⟨rfl, List.forall₂_same.mpr fun e _ => ⟨rfl, rfl, rfl, rfl, rfl, fun _ => rfl⟩⟩

/-- C9 amended: for a caller whose role is not admin the reservation
update leaves the store unchanged (row level security filters every row),
but the call reports success — no Forbidden error is surfaced. -/
theorem c9_non_admin_update_silent_noop (db : DB) (caller : Profile) (rid : Nat)
    (st : Status) (rem : String) (h : caller.role ≠ Role.admin) :
    handleUpdateReservation db caller rid st rem = (UpdateResult.success, db) := by
  unfold handleUpdateReservation
  rw [if_neg h]

/-- Witness for the amended C9 at a concrete team-role caller and entry. -/
theorem c9_non_admin_update_silent_noop_witness :
    handleUpdateReservation
      { categories := []
        parts := []
        profiles := []
        tracking := [{ id := 4, part_id := some 1, team_user_id := some "prof-1"
                       status := Status.issued, scanned_at := 1
                       notes := none, admin_remarks := none }]
        nextId := 5
        now := 9 }
      { id := "prof-2", user_id := "user-2", role := Role.team } 4 Status.lost "gone" =
    (UpdateResult.success,
      { categories := []
        parts := []
        profiles := []
        tracking := [{ id := 4, part_id := some 1, team_user_id := some "prof-1"
                       status := Status.issued, scanned_at := 1
                       notes := none, admin_remarks := none }]
        nextId := 5
        now := 9 }) :=
  c9_non_admin_update_silent_noop _ _ _ _ _ (by decide)

/-- C4 amended: the per-category limit is enforced only client side, by
`handleReserveAll`: a non-empty cart whose total exceeds the category's
effective checkout limit is rejected with the limit-exceeded message
before the checkout endpoint is invoked (so nothing mutates); the server
itself performs no category-limit check. -/
theorem c4_client_guard_rejects_over_limit (cart : List (Int × Int))
    (category : Option Category) (hne : cart ≠ [])
    (hover : (cart.map Prod.snd).sum > effectiveLimit category) :
    handleReserveAll cart category =
      ClientCheckout.limitExceeded (effectiveLimit category) := by
  rcases cart with _ | ⟨a, t⟩
  · exact absurd rfl hne
  · unfold handleReserveAll
    rw [if_neg (by simp)]
    simp only []
    rw [if_pos hover]

/-- Witness for the amended C4: a cart of 11 units against the default
limit 10. -/
theorem c4_client_guard_witness :
    handleReserveAll [((1 : Int), (11 : Int))] none =
      ClientCheckout.limitExceeded (effectiveLimit none) :=
  c4_client_guard_rejects_over_limit _ _ (by decide) (by decide)

/-- Coercing the fallback item's already-coerced part id again changes
nothing: `Number(Number(x))` equals `Number(x)`. -/
theorem jsNumber_normalize (v : RawValue) :
    jsNumber (match jsNumber v with
              | some n => RawValue.num n
              | none => RawValue.nan) = jsNumber v := by
  cases v <;> rfl

/-- The item loop only looks at the head's part id through `Number(...)`:
two heads with the same coercion and the same quantity are processed
identically. -/
theorem runItems_head_congr (db : DB) (profId : String) (a b q : RawValue)
    (rest : List RawItem) (hab : jsNumber a = jsNumber b) :
    runItems db profId ({ part_id := a, quantity := q } :: rest) =
    runItems db profId ({ part_id := b, quantity := q } :: rest) := by
  simp only [runItems, hab]

/-- C10: a POST body without an `items` field is handled as the single
item `[{part_id: body.part_id, quantity: 1}]` — the handler behaves
exactly as on a request carrying that one-element list — and any quantity
whose JS numeric coercion is NaN (missing field or non-numeric value) is
processed as quantity 1. -/
theorem c10_missing_items_fallback (db : DB) (auth : Option String) (body : Body)
    (hbody : body.items = none) (v : RawValue) (hv : jsNumber v = none) :
    serveBulk db auth body =
      serveBulk db auth
        { items := some [{ part_id := body.part_id, quantity := RawValue.num 1 }]
          part_id := body.part_id } ∧
    numberOrOne v = 1 := by
  constructor
  · rcases auth with _ | uid
    · rfl
    · rcases hp : db.profiles.find? fun pr => decide (pr.user_id = uid) with _ | prof
      · simp only [serveBulk, hp]
      · simp only [serveBulk, hp, parseItems, hbody]
        rw [runItems_head_congr db prof.id _ body.part_id (RawValue.num 1) []
          (jsNumber_normalize body.part_id)]
        simp only [List.foldl_cons, List.foldl_nil]
  · simp only [numberOrOne, hv]

/-- Witness for C10 at a concrete body without `items` and a concrete
non-numeric quantity value. -/
theorem c10_missing_items_fallback_witness :
    serveBulk
      { categories := [], parts := [], profiles := [], tracking := []
        nextId := 0, now := 0 }
      (some "user-1") { items := none, part_id := RawValue.num 7 } =
    serveBulk
      { categories := [], parts := [], profiles := [], tracking := []
        nextId := 0, now := 0 }
      (some "user-1")
      { items := some [{ part_id := RawValue.num 7, quantity := RawValue.num 1 }]
        part_id := RawValue.num 7 } ∧
    numberOrOne RawValue.nan = 1 :=
  c10_missing_items_fallback _ (some "user-1") _ rfl RawValue.nan rfl

/-- C5 amended: validation is per line item, in order, not up front.
Profile resolution alone happens before any mutation; when a later line
item fails the `!part_id || quantity <= 0` check, the request returns the
invalid-item rejection while keeping exactly the state produced by the
successfully processed earlier items. -/
theorem c5_validation_per_item_keeps_prior_mutations (profId : String)
    (item : RawItem) (rest : List RawItem) (hbad : isInvalidItem item = true) :
    ∀ (pre : List RawItem) (db db1 : DB),
      runItems db profId pre = Except.ok db1 →
      runItems db profId (pre ++ item :: rest) =
        Except.error (CheckoutResult.invalidItem, db1)
  | [], db, db1, hpre => by
      have hdb : db = db1 := by
        simpa only [runItems, Except.ok.injEq] using hpre
      subst hdb
      simp only [List.nil_append]
      rcases hj : jsNumber item.part_id with _ | pid
      · simp only [runItems, hj]
      · have hbad1 := hbad
        simp only [isInvalidItem, hj] at hbad1
        by_cases hz : pid = 0
        · simp only [runItems, hj, if_pos hz]
        · have hq : numberOrOne item.quantity ≤ 0 := by
            have hdisj : pid = 0 ∨ numberOrOne item.quantity ≤ 0 := by
              simpa using hbad1
            rcases hdisj with h0 | h1
            · exact absurd h0 hz
            · exact h1
          simp only [runItems, hj, if_neg hz, if_pos hq]
  | a :: pre, db, db1, hpre => by
      rcases hj : jsNumber a.part_id with _ | pid
      · simp only [runItems, hj] at hpre
        exact Except.noConfusion hpre
      · by_cases hz : pid = 0
        · simp only [runItems, hj, if_pos hz] at hpre
          exact Except.noConfusion hpre
        · by_cases hq : numberOrOne a.quantity ≤ 0
          · simp only [runItems, hj, if_neg hz, if_pos hq] at hpre
            exact Except.noConfusion hpre
          · rcases hpu : processUnits db profId pid (numberOrOne a.quantity).toNat
              with ⟨e, dbe⟩ | dbm
            · simp only [runItems, hj, if_neg hz, if_neg hq, hpu] at hpre
              split at hpre <;> simp at hpre
            · simp only [runItems, hj, if_neg hz, if_neg hq, hpu] at hpre
              have ih := c5_validation_per_item_keeps_prior_mutations profId item rest
                hbad pre dbm db1 hpre
              simp only [List.cons_append, runItems, hj, if_neg hz, if_neg hq, hpu]
              exact ih

/-- Witness for the amended C5: a valid first item (part 1, quantity 1)
followed by an invalid one (part id 0); the failure response carries the
state in which part 1 was already decremented and tracked. -/
theorem c5_validation_per_item_witness :
    runItems
      { categories := []
        parts := [{ id := 1, category_id := 1, name := "R", quantity := 5 }]
        profiles := [{ id := "prof-1", user_id := "user-1", role := Role.team }]
        tracking := []
        nextId := 0
        now := 0 }
      "prof-1"
      ([{ part_id := RawValue.num 1, quantity := RawValue.num 1 }] ++
        ({ part_id := RawValue.num 0, quantity := RawValue.num 1 } :: [])) =
      Except.error (CheckoutResult.invalidItem,
        { categories := []
          parts := [{ id := 1, category_id := 1, name := "R", quantity := 4 }]
          profiles := [{ id := "prof-1", user_id := "user-1", role := Role.team }]
          tracking := [{ id := 0, part_id := some 1, team_user_id := some "prof-1"
                         status := Status.reserved, scanned_at := 0
                         notes := none, admin_remarks := none }]
          nextId := 1
          now := 0 }) :=
  c5_validation_per_item_keeps_prior_mutations "prof-1"
    { part_id := RawValue.num 0, quantity := RawValue.num 1 } [] (by decide)
    [{ part_id := RawValue.num 1, quantity := RawValue.num 1 }] _ _ (by decide)

/-- C6 amended: a `part_id` referencing no existing part fails the legacy
single-item path with the PartNotFound response (which does not name the
part), while the bulk path fails with the generic 500
"Checkout failed: ..." response surfacing the store's foreign-key
violation — not a PartNotFound error — and in both paths the store is
unchanged. -/
theorem c6_unknown_part_behavior (db : DB) (uid : String) (prof : Profile)
    (pid : Int)
    (hprof : db.profiles.find? (fun pr => decide (pr.user_id = uid)) = some prof)
    (hpid : pid ≠ 0) (hmiss : lookupPart db pid = none) :
    serveLegacy db (some uid) { items := none, part_id := RawValue.num pid } =
      (LegacyResult.partNotFound, db) ∧
    serveBulk db (some uid)
        { items := some [{ part_id := RawValue.num pid, quantity := RawValue.num 1 }]
          part_id := RawValue.nan } =
      (CheckoutResult.checkoutFailed ("Checkout failed: " ++ fkPartViolation.message), db) := by
  have hall : (db.parts.all fun p => decide (p.id ≠ pid)) = true := by
    rw [List.all_eq_true]
    intro p hp
    have hne := List.find?_eq_none.mp hmiss p hp
    simpa using hne
  have hrpc : transaction_decrement_and_track db pid prof.id =
      Except.error fkPartViolation := by
    simp only [transaction_decrement_and_track]
    rw [if_pos hall]
  have hstock : ¬ (errIsStockIssue fkPartViolation = true) := by decide
  have hrun : runItems db prof.id
      [{ part_id := RawValue.num pid, quantity := RawValue.num 1 }] =
      Except.error
        (CheckoutResult.checkoutFailed ("Checkout failed: " ++ fkPartViolation.message), db) := by
    have h1 : ¬ (numberOrOne (RawValue.num 1) ≤ 0) := by decide
    simp only [runItems, jsNumber, if_neg hpid, if_neg h1, processUnits, hrpc,
      if_neg hstock]
  refine ⟨?_, ?_⟩
  · simp only [serveLegacy, hprof, jsNumber, if_neg hpid, hmiss]
  · simp only [serveBulk, hprof, parseItems, hrun]

/-- Witness for the amended C6 at a concrete store with no part 42. -/
theorem c6_unknown_part_witness :
    serveLegacy
      { categories := [], parts := []
        profiles := [{ id := "prof-1", user_id := "user-1", role := Role.team }]
        tracking := [], nextId := 0, now := 0 }
      (some "user-1") { items := none, part_id := RawValue.num 42 } =
      (LegacyResult.partNotFound,
        { categories := [], parts := []
          profiles := [{ id := "prof-1", user_id := "user-1", role := Role.team }]
          tracking := [], nextId := 0, now := 0 }) ∧
    serveBulk
      { categories := [], parts := []
        profiles := [{ id := "prof-1", user_id := "user-1", role := Role.team }]
        tracking := [], nextId := 0, now := 0 }
      (some "user-1")
      { items := some [{ part_id := RawValue.num 42, quantity := RawValue.num 1 }]
        part_id := RawValue.nan } =
      (CheckoutResult.checkoutFailed ("Checkout failed: " ++ fkPartViolation.message),
        { categories := [], parts := []
          profiles := [{ id := "prof-1", user_id := "user-1", role := Role.team }]
          tracking := [], nextId := 0, now := 0 }) :=
  c6_unknown_part_behavior _ "user-1"
    { id := "prof-1", user_id := "user-1", role := Role.team } 42
    (by decide) (by decide) (by decide)

end ReserveScan
